import Mathlib

/-
Verification of the image-clone-controller reconciliation core.

The Go sources under pkg/controller (utils.go: the image codec, the
mirroring protocol, the worker loop and the reconcile function) are
shallowly embedded below.  Go strings are Lean `String`s; the stdlib
helpers `strings.Split`, `strings.Contains` and `strings.HasPrefix`
(used only with one-character separators in this code base) are
embedded as executable functions over the character list of the
string.  External collaborators (the go-containerregistry client and
the Kubernetes cache/API) are modelled by explicit parameters: the
destination registry is a tag-listing state threaded through
`processImage`, and cache lookup / update results are inputs of
`checkAndUpdateImage`.
-/

namespace ImageClone

/-- Embedding of Go `strings.Split(s, sep)` for a one-character
separator, by structural recursion on the character list: `acc` holds
the (reversed) characters of the current field. -/
def goSplitAux (sep : Char) : List Char → List Char → List String
  | [], acc => [String.mk acc.reverse]
  | c :: cs, acc =>
    if c == sep then String.mk acc.reverse :: goSplitAux sep cs []
    else goSplitAux sep cs (c :: acc)

/-- Go `strings.Split(s, sep)` with a one-character separator `sep`. -/
def goSplit (s : String) (sep : Char) : List String :=
  goSplitAux sep s.toList []

/-- Go `strings.Contains(s, c)` for a one-character needle. -/
def goContains (s : String) (c : Char) : Bool :=
  s.toList.contains c

/-- Go `strings.HasPrefix(s, pre)`. -/
def strStartsWith (s pre : String) : Bool :=
  pre.toList.isPrefixOf s.toList

/-- The name-and-tag segment selection at the top of `retagImage`
(utils.go lines 19-24): split the reference on `/`; a two-segment
reference keeps the second segment, any other shape keeps the first. -/
def imageNameWithTag (nm : String) : String :=
  let image := goSplit nm '/'
  if image.length == 2 then image.getD 1 "" else image.getD 0 ""

/-- The tail of `retagImage` (utils.go lines 25-38): split the chosen
segment on `:` into name and tag, prepend the configured repository,
and rebuild the new reference.  Returns (imageName, tag, newImage). -/
def retagOfSegment (repository seg : String) : String × String × String :=
  let p :=
    if goContains seg ':' then
      let list := goSplit seg ':'
      (list.getD 0 "", list.getD 1 "")
    else (seg, "")
  let imageName := repository ++ "/" ++ p.1
  let newImage := if p.2.length > 0 then imageName ++ ":" ++ p.2 else imageName
  (imageName, p.2, newImage)

/-- `retagImage` (utils.go lines 17-39).  The Go function reads the
package-global `repository` (env REPOSITORY); here it is an explicit
first argument. -/
def retagImage (repository nm : String) : String × String × String :=
  retagOfSegment repository (imageNameWithTag nm)

/-- `imageNotPresent` (utils.go lines 353-360): true when a non-empty
destination repository is configured and the image string does not
start with it. -/
def imageNotPresent (repository image : String) : Bool :=
  if repository.length == 0 then false
  else if !strStartsWith image repository then true
  else false

/-- Modelled from the spec: the registry collaborator's visible state,
a map from destination repository name to its tag listing
(spec section 6: listTags(repository) returns a sequence of tag strings). -/
structure RegistryState where
  tags : List (String × List String)
deriving DecidableEq

/-- Modelled from the spec: `remote.List` over the registry state —
the tag listing of a repository, empty when the repository is unknown
(the Go call sites in utils.go discard the error). -/
def listTags (st : RegistryState) (repo : String) : List String :=
  match st.tags.find? (fun p => p.1 == repo) with
  | some p => p.2
  | none => []

/-- `imageAlreadyPresentInRepo` (utils.go lines 42-51): list the
repository's tags and scan for the target tag. -/
def imageAlreadyPresentInRepo (st : RegistryState) (registry tag : String) : Bool :=
  (listTags st registry).any (fun t => t == tag)

/-- Modelled from the spec: `remote.Write` of a (repository, tag)
reference — per spec sections 4.2 and 8, a completed push is reflected
in the repository's subsequent tag listing. -/
def writeImage (st : RegistryState) (repo tag : String) : RegistryState :=
  ⟨(repo, tag :: listTags st repo) :: st.tags⟩

/-- Credentials for the destination registry (authn.AuthConfig). -/
structure Creds where
  username : String
  password : String
deriving DecidableEq

/-- `getRegistryCredentials` (utils.go lines 54-66).  The Go function
reads env USERNAME and PASSWORD; here they are explicit arguments. -/
def getRegistryCredentials (username password : String) : Except String Creds :=
  if username.length == 0 || password.length == 0 then
    .error "failed to fetch credentials"
  else
    .ok ⟨username, password⟩

/-- The process-wide configuration read from the environment:
REPOSITORY, USERNAME, PASSWORD. -/
structure MirrorEnv where
  repository : String
  username : String
  password : String
deriving DecidableEq

/-- Modelled from the spec: `name.ParseReference` of the registry
client library is outside src; spec section 4.1 says reference parsing
fails only on empty input. -/
def parseReferenceOk (s : String) : Bool :=
  s.length != 0

/-- Result of one `processImage` call: the registry state after the
call, the returned value (new image reference or error), and how many
pushes (`remote.Write`) were issued. -/
structure ProcessResult where
  state : RegistryState
  result : Except String String
  pushes : Nat

/-- True when an `Except` carries a value. -/
def exceptOk {ε α : Type} : Except ε α → Bool
  | .ok _ => true
  | .error _ => false

/-- `processImage` (utils.go lines 69-96): parse the source reference,
fetch destination credentials, pull the source image (collaborator
call, modelled as succeeding), retag, and push to the destination
unless the target tag is already in the destination's tag listing. -/
def processImage (env : MirrorEnv) (st : RegistryState) (imgName : String) : ProcessResult :=
  if !parseReferenceOk imgName then
    ⟨st, .error ("error while parsing old image " ++ imgName ++ " as reference"), 0⟩
  else
    match getRegistryCredentials env.username env.password with
    | .error e => ⟨st, .error ("error while getting private registry creadentials. Error: " ++ e), 0⟩
    | .ok _ =>
      let r := retagImage env.repository imgName
      let registry := r.1
      let tag := r.2.1
      let newImage := r.2.2
      if !parseReferenceOk newImage then
        ⟨st, .error ("error while parsing new image " ++ imgName ++ " as reference"), 0⟩
      else if !imageAlreadyPresentInRepo st registry tag then
        ⟨writeImage st registry tag, .ok newImage, 1⟩
      else
        ⟨st, .ok newImage, 0⟩

/-- A container of a workload's pod template: name and image reference
(corev1.Container, the two fields this controller touches). -/
structure Container where
  name : String
  image : String
deriving DecidableEq

/-- The Deployment status counters read by `isDeploymentReady`
(appsv1.DeploymentStatus.Replicas / ReadyReplicas, Go int32). -/
structure DeploymentStatus where
  replicas : Int
  readyReplicas : Int
deriving DecidableEq

/-- The fields of appsv1.Deployment read by the reconciler: the status
counters and the pod template's container list. -/
structure Deployment where
  status : DeploymentStatus
  containers : List Container
deriving DecidableEq

/-- The DaemonSet status counters read by `isDaemonSetReady`
(appsv1.DaemonSetStatus.DesiredNumberScheduled / NumberReady). -/
structure DaemonSetStatus where
  desiredNumberScheduled : Int
  numberReady : Int
deriving DecidableEq

/-- The fields of appsv1.DaemonSet read by the reconciler. -/
structure DaemonSet where
  status : DaemonSetStatus
  containers : List Container
deriving DecidableEq

/-- `isDeploymentReady` (utils.go lines 333-341). -/
def isDeploymentReady (deployment : Deployment) : Bool :=
  let desired := deployment.status.replicas
  let ready := deployment.status.readyReplicas
  if desired = ready ∧ desired > 0 then true else false

/-- `isDaemonSetReady` (utils.go lines 343-351). -/
def isDaemonSetReady (daemonsets : DaemonSet) : Bool :=
  let desired := daemonsets.status.desiredNumberScheduled
  let ready := daemonsets.status.numberReady
  if desired = ready ∧ desired > 0 then true else false

/-- Result of a cache lister `Get`: the object, a NotFound error, or
another error.  In Go the object pointer is nil in both error cases. -/
inductive Lookup (α : Type) where
  | ok (w : α)
  | notFound
  | failed (msg : String)
deriving DecidableEq

/-- The (possibly nil) object pointer returned by a lister `Get`. -/
def Lookup.obj {α : Type} : Lookup α → Option α
  | .ok w => some w
  | .notFound => none
  | .failed _ => none

/-- How one `checkAndUpdateImage` call ends: a nil return, an error
return, or a runtime panic (nil-pointer dereference). -/
inductive COutcome where
  | retNil
  | retErr (msg : String)
  | panicked
deriving DecidableEq

/-- Observable trace of one `checkAndUpdateImage` call: how it ended,
whether a readiness predicate was invoked, how many `processImage` and
API update calls were issued, pushes performed, the resulting registry
state, and the container list after any in-place image rewrite. -/
structure ReconcileTrace where
  outcome : COutcome
  readinessChecked : Bool
  processCalls : Nat
  updates : Nat
  pushes : Nat
  state : RegistryState
  containers : List Container
deriving DecidableEq

/-- The container loop of `checkAndUpdateImage` (utils.go lines
302-328).  Both branches of the loop body return, so only the first
container is ever examined; the in-place rewrite
`containers[i].Image = img` therefore always happens at index 0.  The
API update call's result is the `updateResult` parameter. -/
def containerLoop (env : MirrorEnv) (st : RegistryState)
    (updateResult : Except String Unit) (containers : List Container) : ReconcileTrace :=
  match containers with
  | [] =>
    ⟨.retErr "not in ready state", true, 0, 0, 0, st, []⟩
  | cont :: rest =>
    if imageNotPresent env.repository cont.image then
      let pr := processImage env st cont.image
      match pr.result with
      | .error e => ⟨.retErr e, true, 1, 0, pr.pushes, pr.state, cont :: rest⟩
      | .ok img =>
        let newContainers := Container.mk cont.name img :: rest
        match updateResult with
        | .ok _ => ⟨.retNil, true, 1, 1, pr.pushes, pr.state, newContainers⟩
        | .error e => ⟨.retErr e, true, 1, 1, pr.pushes, pr.state, newContainers⟩
    else
      ⟨.retNil, true, 0, 0, 0, st, cont :: rest⟩

/-- `checkAndUpdateImage` (utils.go lines 264-331).  The cache lookups
and the API update are collaborator calls, passed in as the results
the cluster would return for this key.  The Go function declares an
error accumulator `errs` that is never assigned, so its
`if errs != nil` block — the one containing the `IsNotFound` handling —
is dead; it is kept here verbatim.  Dereferencing a nil workload
pointer in a readiness predicate is a panic. -/
def checkAndUpdateImage (resourceType : String)
    (depLookup : Lookup Deployment) (dsLookup : Lookup DaemonSet)
    (env : MirrorEnv) (st : RegistryState)
    (updateResult : Except String Unit) : ReconcileTrace :=
  let errs : Option String := none
  let dep : Option Deployment :=
    if resourceType == "deployment" then depLookup.obj else none
  let daemonset : Option DaemonSet :=
    if resourceType == "daemonset" then dsLookup.obj else none
  if errs.isSome then
    -- dead branch: errs is never assigned, so errs.isSome is false
    let isNF := (resourceType == "deployment" && depLookup == .notFound)
             || (resourceType == "daemonset" && dsLookup == .notFound)
    if isNF then ⟨.retNil, false, 0, 0, 0, st, []⟩
    else ⟨.retErr "error getting resource", false, 0, 0, 0, st, []⟩
  else
    if resourceType == "deployment" then
      match dep with
      | none => ⟨.panicked, true, 0, 0, 0, st, []⟩
      | some d =>
        if isDeploymentReady d then
          containerLoop env st updateResult d.containers
        else
          ⟨.retErr "deployment is not ready", true, 0, 0, 0, st, d.containers⟩
    else if resourceType == "daemonset" then
      match daemonset with
      | none => ⟨.panicked, true, 0, 0, 0, st, []⟩
      | some d =>
        if isDaemonSetReady d then
          containerLoop env st updateResult d.containers
        else
          ⟨.retErr "daemonset is not ready", true, 0, 0, 0, st, d.containers⟩
    else
      ⟨.retErr "not in ready state", false, 0, 0, 0, st, []⟩

/-- An item taken from the workqueue: a string key or something else
(the type assertion in the worker guards against non-strings). -/
inductive QObj where
  | str (s : String)
  | other
deriving DecidableEq

/-- Observable trace of one `processNext` execution inside `runWorker`
(utils.go lines 224-260): which queue calls were made, whether
`checkAndUpdateImage` was invoked, whether a panic escaped, whether an
error was returned, and the pushes/updates performed downstream. -/
structure WorkerTrace where
  forgot : Bool
  rateLimited : Bool
  checkCalled : Bool
  panicked : Bool
  retErr : Bool
  pushes : Nat
  updates : Nat
deriving DecidableEq

/-- The `processNext` closure of `runWorker` (utils.go lines 225-250):
type-assert the item, split the key on `/`, require exactly three
parts, skip namespace kube-system, otherwise run `checkAndUpdateImage`;
an error from it rate-limits the key, success falls through to
`Forget`.  A malformed key returns nil without reaching `Forget`. -/
def processNext (obj : QObj)
    (depLookup : Lookup Deployment) (dsLookup : Lookup DaemonSet)
    (env : MirrorEnv) (st : RegistryState)
    (updateResult : Except String Unit) : WorkerTrace :=
  match obj with
  | .other => ⟨true, false, false, false, false, 0, 0⟩
  | .str key =>
    let parts := goSplit key '/'
    if parts.length != 3 then
      ⟨false, false, false, false, false, 0, 0⟩
    else if parts.getD 1 "" != "kube-system" then
      let rt := checkAndUpdateImage (parts.getD 0 "") depLookup dsLookup env st updateResult
      match rt.outcome with
      | .panicked => ⟨false, false, true, true, false, rt.pushes, rt.updates⟩
      | .retErr _ => ⟨false, true, true, false, true, rt.pushes, rt.updates⟩
      | .retNil => ⟨true, false, true, false, false, rt.pushes, rt.updates⟩
    else
      ⟨true, false, false, false, false, 0, 0⟩

example : goSplit "a/b/c" '/' = ["a", "b", "c"] := by decide
example : goSplit "" '/' = [""] := by decide
example : goSplit "a/" '/' = ["a", ""] := by decide
example : retagImage "backup" "myrepo/app:v1" = ("backup/app", "v1", "backup/app:v1") := by decide
example : retagImage "backup" "registry.io/ns/app:v1" = ("backup/registry.io", "", "backup/registry.io") := by decide
example : imageNotPresent "backup" "backup/app:v1" = false := by decide
example : imageNotPresent "backup" "myrepo/app:v1" = true := by decide
example : imageNotPresent "" "myrepo/app:v1" = false := by decide
example :
    processImage ⟨"backup", "u", "p"⟩ ⟨[]⟩ "myrepo/app:v1"
      = ⟨⟨[("backup/app", ["v1"])]⟩, .ok "backup/app:v1", 1⟩ := rfl
example :
    (processImage ⟨"backup", "u", "p"⟩ ⟨[("backup/app", ["v1"])]⟩ "myrepo/app:v1").pushes = 0 := by
  decide
example :
    (checkAndUpdateImage "deployment" .notFound .notFound ⟨"backup", "u", "p"⟩ ⟨[]⟩
      (.ok ())).outcome = .panicked := by decide
example :
    (processNext (.str "badkey") .notFound .notFound ⟨"backup", "u", "p"⟩ ⟨[]⟩
      (.ok ())).forgot = false := by decide
example :
    (processNext (.str "deployment/kube-system/foo") .notFound .notFound ⟨"backup", "u", "p"⟩ ⟨[]⟩
      (.ok ())).checkCalled = false := by decide

/-- `imageNotPresent` is exactly the negated prefix test, for every
repository setting (including the empty one). -/
theorem imageNotPresent_eq_not_startsWith (repository image : String) :
    imageNotPresent repository image = !(strStartsWith image repository) := by
  unfold imageNotPresent
  by_cases h : repository.length = 0
  · have hr : repository = "" := by
      cases repository with
      | mk d =>
        simp [String.length] at h
        simp [h]
    subst hr
    simp [strStartsWith, List.isPrefixOf]
  · simp [h]

/-- C5: the already-mirrored check is exactly a prefix test —
`imageNotPresent` returns false iff the image string begins with the
configured destination prefix, and with an empty configured prefix it
returns false for every image; it is a pure function of its two string
arguments. -/
theorem imageNotPresent_false_iff_hasPre :
    (∀ repository image,
        imageNotPresent repository image = false ↔ strStartsWith image repository = true)
    ∧ (∀ image, imageNotPresent "" image = false) := by
  constructor
  · intro repository image
    rw [imageNotPresent_eq_not_startsWith]
    cases strStartsWith image repository <;> simp
  · intro image
    rw [imageNotPresent_eq_not_startsWith]
    simp [strStartsWith, List.isPrefixOf]

/-- Witness for C5 at concrete inputs. -/
theorem imageNotPresent_false_iff_hasPre_witness :
    imageNotPresent "backup" "backup/app:v1" = false ∧ imageNotPresent "" "other/app:v1" = false :=
  ⟨(imageNotPresent_false_iff_hasPre.1 "backup" "backup/app:v1").mpr (by decide),
   imageNotPresent_false_iff_hasPre.2 "other/app:v1"⟩

/-- C6: both readiness predicates hold exactly when the desired count
equals the ready count and the desired count is positive; in
particular (3,3) is ready, (0,0) and (3,2) are not, for both kinds. -/
theorem readiness_eq_desired_ready_pos :
    (∀ d : Deployment,
        isDeploymentReady d = true
          ↔ (d.status.replicas = d.status.readyReplicas ∧ 0 < d.status.replicas))
    ∧ (∀ d : DaemonSet,
        isDaemonSetReady d = true
          ↔ (d.status.desiredNumberScheduled = d.status.numberReady
              ∧ 0 < d.status.desiredNumberScheduled))
    ∧ isDeploymentReady ⟨⟨3, 3⟩, []⟩ = true
    ∧ isDeploymentReady ⟨⟨0, 0⟩, []⟩ = false
    ∧ isDeploymentReady ⟨⟨3, 2⟩, []⟩ = false
    ∧ isDaemonSetReady ⟨⟨3, 3⟩, []⟩ = true
    ∧ isDaemonSetReady ⟨⟨0, 0⟩, []⟩ = false
    ∧ isDaemonSetReady ⟨⟨3, 2⟩, []⟩ = false := by
  refine ⟨fun d => ?_, fun d => ?_, by decide, by decide, by decide,
    by decide, by decide, by decide⟩
  · unfold isDeploymentReady
    dsimp only
    split <;> simp_all <;> omega
  · unfold isDaemonSetReady
    dsimp only
    split <;> simp_all <;> omega

/-- Witness for C6 at a concrete status. -/
theorem readiness_eq_desired_ready_pos_witness :
    isDeploymentReady ⟨⟨5, 5⟩, []⟩ = true :=
  (readiness_eq_desired_ready_pos.1 ⟨⟨5, 5⟩, []⟩).mpr (by decide)

/-- C7: `retagImage` is a pure deterministic function of the
configured repository and the reference string, and any two references
with the same decomposed name-and-tag segment map to the same
(imageName, tag, newImage) triple, whatever their source registry. -/
theorem retagImage_deterministic :
    (∀ repository nm, retagImage repository nm = retagImage repository nm)
    ∧ (∀ repository n₁ n₂, imageNameWithTag n₁ = imageNameWithTag n₂ →
        retagImage repository n₁ = retagImage repository n₂) := by
  refine ⟨fun _ _ => rfl, fun repository n₁ n₂ h => ?_⟩
  unfold retagImage
  rw [h]

/-- Witness for C7: two source registries, same name and tag. -/
theorem retagImage_deterministic_witness :
    retagImage "backup" "reg1.io/app:v1" = retagImage "backup" "reg2.io/app:v1" :=
  retagImage_deterministic.2 "backup" "reg1.io/app:v1" "reg2.io/app:v1" (by decide)

/-- C10: on a reference with three or more slash-separated segments,
`retagImage` keeps the first segment (the registry host) as the
name-and-tag portion, so the destination is the configured prefix
joined with that first segment, not with the last path segment; it is
total and never fails. -/
theorem retagImage_first_segment :
    (∀ repository nm, 3 ≤ (goSplit nm '/').length →
        retagImage repository nm = retagOfSegment repository ((goSplit nm '/').getD 0 ""))
    ∧ retagImage "backup" "registry.io/ns1/app:v1"
        = ("backup/registry.io", "", "backup/registry.io") := by
  refine ⟨fun repository nm h => ?_, by decide⟩
  unfold retagImage imageNameWithTag
  have h2 : ((goSplit nm '/').length == 2) = false := by
    simp
    omega
  simp [h2]

/-- Witness for C10 at a three-segment reference. -/
theorem retagImage_first_segment_witness :
    retagImage "backup" "registry.io/ns1/app:v1"
      = retagOfSegment "backup" ((goSplit "registry.io/ns1/app:v1" '/').getD 0 "") :=
  retagImage_first_segment.1 "backup" "registry.io/ns1/app:v1" (by decide)

/-- The reference built by `retagImage` always starts with the
configured repository and a slash, so it is never empty and always
parses. -/
theorem parse_retag_newImage (repository nm : String) :
    parseReferenceOk (retagImage repository nm).2.2 = true := by
  unfold retagImage retagOfSegment parseReferenceOk
  dsimp only
  have h1 : ("/" : String).length = 1 := rfl
  split
  all_goals split
  all_goals simp only [bne_iff_ne, ne_eq, String.length_append, h1]
  all_goals omega

/-- After a push, the pushed tag is in the repository's tag listing. -/
theorem listTags_writeImage (st : RegistryState) (repo tag : String) :
    listTags (writeImage st repo tag) repo = tag :: listTags st repo := by
  unfold listTags writeImage
  simp [List.find?]
  rfl

/-- After a push, the tag-presence check for the pushed tag holds. -/
theorem present_after_write (st : RegistryState) (repo tag : String) :
    imageAlreadyPresentInRepo (writeImage st repo tag) repo tag = true := by
  simp [imageAlreadyPresentInRepo, listTags_writeImage]

/-- A successful `processImage` call implies the source reference
parsed and the destination credentials were available. -/
theorem processImage_ok_inv (env : MirrorEnv) (st : RegistryState) (img : String)
    (hok : exceptOk (processImage env st img).result = true) :
    parseReferenceOk img = true
    ∧ exceptOk (getRegistryCredentials env.username env.password) = true := by
  unfold processImage at hok
  cases hp : parseReferenceOk img
  · rw [hp] at hok
    simp [exceptOk] at hok
  · cases hc : getRegistryCredentials env.username env.password with
    | error e => simp [hp, hc, exceptOk] at hok
    | ok c => exact ⟨rfl, by simp [hc, exceptOk]⟩

/-- When the reference parses and credentials are available,
`processImage` reduces to the tag-listing decision: skip with no state
change when the target tag is listed, otherwise push exactly once. -/
theorem processImage_characterize (env : MirrorEnv) (st : RegistryState) (img : String)
    (hp : parseReferenceOk img = true)
    (hc : exceptOk (getRegistryCredentials env.username env.password) = true) :
    processImage env st img =
      if imageAlreadyPresentInRepo st (retagImage env.repository img).1
          (retagImage env.repository img).2.1
      then ⟨st, .ok (retagImage env.repository img).2.2, 0⟩
      else ⟨writeImage st (retagImage env.repository img).1 (retagImage env.repository img).2.1,
            .ok (retagImage env.repository img).2.2, 1⟩ := by
  unfold processImage
  cases hcr : getRegistryCredentials env.username env.password with
  | error e => simp [hcr, exceptOk] at hc
  | ok c =>
    simp only [hp, hcr, Bool.not_true, Bool.false_eq_true, if_false, parse_retag_newImage]
    by_cases hpre : imageAlreadyPresentInRepo st (retagImage env.repository img).1
        (retagImage env.repository img).2.1 = true
    · simp [hpre]
    · simp [hpre]

/-- C1: mirroring is idempotent — a successful `processImage` pushes
exactly when the target tag is absent from the destination listing,
and an immediately repeated call (the first push now reflected in the
listing) performs no push and leaves the registry state unchanged. -/
theorem processImage_idempotent (env : MirrorEnv) (st : RegistryState) (img : String)
    (hok : exceptOk (processImage env st img).result = true) :
    ((processImage env st img).pushes
        = if imageAlreadyPresentInRepo st (retagImage env.repository img).1
              (retagImage env.repository img).2.1 then 0 else 1)
    ∧ (processImage env (processImage env st img).state img).pushes = 0
    ∧ (processImage env (processImage env st img).state img).state
        = (processImage env st img).state := by
  obtain ⟨hp, hc⟩ := processImage_ok_inv env st img hok
  have hchar : ∀ s : RegistryState, processImage env s img =
      if imageAlreadyPresentInRepo s (retagImage env.repository img).1
          (retagImage env.repository img).2.1
      then ⟨s, .ok (retagImage env.repository img).2.2, 0⟩
      else ⟨writeImage s (retagImage env.repository img).1 (retagImage env.repository img).2.1,
            .ok (retagImage env.repository img).2.2, 1⟩ :=
    fun s => processImage_characterize env s img hp hc
  cases hpre : imageAlreadyPresentInRepo st (retagImage env.repository img).1
      (retagImage env.repository img).2.1 with
  | true =>
    simp only [hchar]
    simp [hpre]
  | false =>
    simp only [hchar]
    simp [hpre, present_after_write]

/-- Witness for C1: fresh registry, two calls, one push then none. -/
theorem processImage_idempotent_witness :
    (processImage ⟨"backup", "u", "p"⟩ ⟨[]⟩ "myrepo/app:v1").pushes = 1
    ∧ (processImage ⟨"backup", "u", "p"⟩
        (processImage ⟨"backup", "u", "p"⟩ ⟨[]⟩ "myrepo/app:v1").state "myrepo/app:v1").pushes
        = 0 := by
  have h := processImage_idempotent ⟨"backup", "u", "p"⟩ ⟨[]⟩ "myrepo/app:v1" (by decide)
  refine ⟨?_, h.2.1⟩
  rw [h.1]
  decide

/-- C8: with either destination credential empty, the credential fetch
fails and `processImage` fails for every source reference, with no
push issued and the destination registry state unchanged. -/
theorem processImage_fails_without_credentials
    (env : MirrorEnv) (st : RegistryState) (img : String)
    (h : env.username = "" ∨ env.password = "") :
    exceptOk (getRegistryCredentials env.username env.password) = false
    ∧ exceptOk (processImage env st img).result = false
    ∧ (processImage env st img).pushes = 0
    ∧ (processImage env st img).state = st := by
  have hc : getRegistryCredentials env.username env.password
      = .error "failed to fetch credentials" := by
    unfold getRegistryCredentials
    rcases h with h | h <;> simp [h]
  cases hp : parseReferenceOk img
  · simp [processImage, hp, exceptOk, hc]
  · simp [processImage, hp, hc, exceptOk]

/-- Witness for C8: empty username. -/
theorem processImage_fails_without_credentials_witness :
    exceptOk (processImage ⟨"backup", "", "p"⟩ ⟨[]⟩ "myrepo/app:v1").result = false
    ∧ (processImage ⟨"backup", "", "p"⟩ ⟨[]⟩ "myrepo/app:v1").pushes = 0 := by
  have h := processImage_fails_without_credentials ⟨"backup", "", "p"⟩ ⟨[]⟩ "myrepo/app:v1"
    (Or.inl rfl)
  exact ⟨h.2.1, h.2.2.1⟩

/-- On a ready deployment found in the cache, `checkAndUpdateImage`
reduces to the container loop over the deployment's containers. -/
theorem checkAndUpdateImage_deployment_ready
    (d : Deployment) (ds : Lookup DaemonSet) (env : MirrorEnv)
    (st : RegistryState) (upd : Except String Unit)
    (hready : isDeploymentReady d = true) :
    checkAndUpdateImage "deployment" (.ok d) ds env st upd
      = containerLoop env st upd d.containers := by
  unfold checkAndUpdateImage
  simp [Lookup.obj, hready]

/-- On a ready daemonset found in the cache, `checkAndUpdateImage`
reduces to the container loop over the daemonset's containers. -/
theorem checkAndUpdateImage_daemonset_ready
    (d : DaemonSet) (dl : Lookup Deployment) (env : MirrorEnv)
    (st : RegistryState) (upd : Except String Unit)
    (hready : isDaemonSetReady d = true) :
    checkAndUpdateImage "daemonset" dl (.ok d) env st upd
      = containerLoop env st upd d.containers := by
  unfold checkAndUpdateImage
  simp [Lookup.obj, hready]

/-- C2 (amended): for either ready workload kind the reconcile pass
runs the container loop, and that loop examines only the container at
index 0.  If its image already has the destination prefix the pass
returns nil without mirroring or updating anything — later containers
are never examined.  If it lacks the prefix, the pass mirrors that
single container, rewrites its image in place at index 0 leaving the
rest untouched, and issues exactly one update call. -/
theorem checkAndUpdateImage_first_container_only
    (env : MirrorEnv) (st : RegistryState) (upd : Except String Unit) :
    (∀ (ds : Lookup DaemonSet) (d : Deployment) (c : Container) (rest : List Container),
        isDeploymentReady d = true → d.containers = c :: rest →
        checkAndUpdateImage "deployment" (.ok d) ds env st upd
          = containerLoop env st upd (c :: rest))
    ∧ (∀ (dl : Lookup Deployment) (d : DaemonSet) (c : Container) (rest : List Container),
        isDaemonSetReady d = true → d.containers = c :: rest →
        checkAndUpdateImage "daemonset" dl (.ok d) env st upd
          = containerLoop env st upd (c :: rest))
    ∧ (∀ (c : Container) (rest : List Container),
        (imageNotPresent env.repository c.image = false →
            containerLoop env st upd (c :: rest) = ⟨.retNil, true, 0, 0, 0, st, c :: rest⟩)
        ∧ (imageNotPresent env.repository c.image = true →
            (containerLoop env st upd (c :: rest)).processCalls = 1
            ∧ ∀ img0, (processImage env st c.image).result = .ok img0 → upd = .ok () →
                containerLoop env st upd (c :: rest)
                  = ⟨.retNil, true, 1, 1, (processImage env st c.image).pushes,
                     (processImage env st c.image).state, Container.mk c.name img0 :: rest⟩)) := by
  refine ⟨fun ds d c rest hready hcont => ?_, fun dl d c rest hready hcont => ?_,
    fun c rest => ⟨fun hnp => ?_, fun hnp => ⟨?_, fun img0 hres hupd => ?_⟩⟩⟩
  · rw [checkAndUpdateImage_deployment_ready d ds env st upd hready, hcont]
  · rw [checkAndUpdateImage_daemonset_ready d dl env st upd hready, hcont]
  · unfold containerLoop
    simp [hnp]
  · unfold containerLoop
    cases hres : (processImage env st c.image).result with
    | error e => simp [hnp, hres]
    | ok i =>
      cases upd with
      | error e => simp [hnp, hres]
      | ok u => simp [hnp, hres]
  · unfold containerLoop
    simp [hnp, hres, hupd]

/-- C2 counterexample: a ready deployment whose first container is
already mirrored while its second is not — the pass issues no mirror
and no update at all, although a container in the list (index 1) needs
mirroring; the claim would require that container to be mirrored with
one update call. -/
theorem checkAndUpdateImage_skips_later_containers :
    imageNotPresent "backup" "other/app:v1" = true
    ∧ checkAndUpdateImage "deployment"
        (.ok ⟨⟨1, 1⟩, [⟨"c0", "backup/app:v1"⟩, ⟨"c1", "other/app:v1"⟩]⟩) .notFound
        ⟨"backup", "u", "p"⟩ ⟨[]⟩ (.ok ())
      = ⟨.retNil, true, 0, 0, 0, ⟨[]⟩,
         [⟨"c0", "backup/app:v1"⟩, ⟨"c1", "other/app:v1"⟩]⟩ := by
  exact ⟨by decide, rfl⟩

/-- Witness for C2 (amended) on a one-container ready deployment whose
image needs mirroring: exactly one mirror, one push, one update, the
image rewritten in place. -/
theorem checkAndUpdateImage_first_container_only_witness :
    checkAndUpdateImage "deployment" (.ok ⟨⟨1, 1⟩, [⟨"c0", "myrepo/app:v1"⟩]⟩) .notFound
        ⟨"backup", "u", "p"⟩ ⟨[]⟩ (.ok ())
      = ⟨.retNil, true, 1, 1, 1, ⟨[("backup/app", ["v1"])]⟩, [⟨"c0", "backup/app:v1"⟩]⟩ := by
  have h := checkAndUpdateImage_first_container_only ⟨"backup", "u", "p"⟩ ⟨[]⟩ (.ok ())
  have h1 := h.1 .notFound ⟨⟨1, 1⟩, [⟨"c0", "myrepo/app:v1"⟩]⟩ ⟨"c0", "myrepo/app:v1"⟩ []
    (by decide) rfl
  have h2 := ((h.2.2 ⟨"c0", "myrepo/app:v1"⟩ []).2 (by decide)).2 "backup/app:v1" rfl rfl
  exact h1.trans (h2.trans rfl)

/-- C3: at a NotFound cache lookup the code does not take its
`IsNotFound` branch (that branch is guarded by the error accumulator
`errs`, which is never assigned): it proceeds to the readiness check
on the nil workload pointer and panics, instead of returning nil as a
terminal skip. -/
theorem checkAndUpdateImage_notFound_panics :
    checkAndUpdateImage "deployment" .notFound .notFound ⟨"backup", "u", "p"⟩ ⟨[]⟩ (.ok ())
      = ⟨.panicked, true, 0, 0, 0, ⟨[]⟩, []⟩ := rfl

/-- C4: a well-formed dequeued key whose namespace part equals
kube-system is forgotten as a terminal skip without ever invoking
`checkAndUpdateImage` — no lookup, readiness, mirror, push or update
happens, and the key is not rate-limited. -/
theorem runWorker_kube_system_skip
    (key : String) (dl : Lookup Deployment) (ds : Lookup DaemonSet)
    (env : MirrorEnv) (st : RegistryState) (upd : Except String Unit)
    (h3 : (goSplit key '/').length = 3)
    (hks : (goSplit key '/').getD 1 "" = "kube-system") :
    processNext (.str key) dl ds env st upd = ⟨true, false, false, false, false, 0, 0⟩ := by
  unfold processNext
  have h1lt : 1 < (goSplit key '/').length := by omega
  have hks2 : (goSplit key '/')[1] = "kube-system" := by
    rw [← List.getD_eq_getElem (goSplit key '/') "" h1lt]
    exact hks
  simp [h3, hks2]

/-- Witness for C4 at a concrete kube-system key. -/
theorem runWorker_kube_system_skip_witness :
    processNext (.str "deployment/kube-system/foo") .notFound .notFound
        ⟨"backup", "u", "p"⟩ ⟨[]⟩ (.ok ())
      = ⟨true, false, false, false, false, 0, 0⟩ :=
  runWorker_kube_system_skip "deployment/kube-system/foo" .notFound .notFound
    ⟨"backup", "u", "p"⟩ ⟨[]⟩ (.ok ()) (by decide) (by decide)

/-- C9 counterexample: a malformed key ("badkey" has one part, not
three) is dropped as a terminal outcome — nil return, no rate-limit —
yet `Forget` is not called on it, contradicting the claim that every
terminal outcome calls `Forget`. -/
theorem runWorker_malformed_key_no_forget :
    processNext (.str "badkey") .notFound .notFound ⟨"backup", "u", "p"⟩ ⟨[]⟩ (.ok ())
      = ⟨false, false, false, false, false, 0, 0⟩ := rfl

/-- C9 (amended): every terminal outcome except the malformed-key path
calls `Forget` — non-string items, kube-system skips and successful
reconciles all do; a malformed key is dropped with neither `Forget`
nor `AddRateLimited`; and every retryable outcome (an error returned
by `checkAndUpdateImage`) calls `AddRateLimited` and does not call
`Forget`. -/
theorem runWorker_forget_discipline
    (dl : Lookup Deployment) (ds : Lookup DaemonSet) (env : MirrorEnv)
    (st : RegistryState) (upd : Except String Unit) :
    (processNext .other dl ds env st upd = ⟨true, false, false, false, false, 0, 0⟩)
    ∧ (∀ key, (goSplit key '/').length ≠ 3 →
        processNext (.str key) dl ds env st upd = ⟨false, false, false, false, false, 0, 0⟩)
    ∧ (∀ key, (goSplit key '/').length = 3 → (goSplit key '/').getD 1 "" = "kube-system" →
        processNext (.str key) dl ds env st upd = ⟨true, false, false, false, false, 0, 0⟩)
    ∧ (∀ key, (goSplit key '/').length = 3 → (goSplit key '/').getD 1 "" ≠ "kube-system" →
        ((checkAndUpdateImage ((goSplit key '/').getD 0 "") dl ds env st upd).outcome = .retNil →
            (processNext (.str key) dl ds env st upd).forgot = true
            ∧ (processNext (.str key) dl ds env st upd).rateLimited = false)
        ∧ (∀ e, (checkAndUpdateImage ((goSplit key '/').getD 0 "") dl ds env st upd).outcome
              = .retErr e →
            (processNext (.str key) dl ds env st upd).rateLimited = true
            ∧ (processNext (.str key) dl ds env st upd).forgot = false
            ∧ (processNext (.str key) dl ds env st upd).retErr = true)) := by
  refine ⟨rfl, fun key h3 => ?_, fun key h3 hks => ?_, fun key h3 hks => ?_⟩
  · unfold processNext
    have hb : ((goSplit key '/').length != 3) = true := by
      simp [bne_iff_ne]
      exact h3
    simp [hb]
  · unfold processNext
    have h1lt : 1 < (goSplit key '/').length := by omega
    have hks2 : (goSplit key '/')[1] = "kube-system" := by
      rw [← List.getD_eq_getElem (goSplit key '/') "" h1lt]
      exact hks
    simp [h3, hks2]
  · unfold processNext
    have h1lt : 1 < (goSplit key '/').length := by omega
    have hks2 : ¬((goSplit key '/')[1] = "kube-system") := by
      rw [← List.getD_eq_getElem (goSplit key '/') "" h1lt]
      exact hks
    simp [h3, hks2]
    constructor
    · intro ho
      simp [ho]
    · intro e ho
      simp [ho]

/-- Witness for C9: a successful reconcile of a well-formed key
forgets the key. -/
theorem runWorker_forget_discipline_witness :
    (processNext (.str "deployment/default/foo")
        (.ok ⟨⟨1, 1⟩, [⟨"c0", "backup/app:v1"⟩]⟩) .notFound
        ⟨"backup", "u", "p"⟩ ⟨[]⟩ (.ok ())).forgot = true := by
  have h := (runWorker_forget_discipline (.ok ⟨⟨1, 1⟩, [⟨"c0", "backup/app:v1"⟩]⟩) .notFound
    ⟨"backup", "u", "p"⟩ ⟨[]⟩ (.ok ())).2.2.2 "deployment/default/foo" (by decide) (by decide)
  exact (h.1 (by decide)).1

end ImageClone
